import Mathlib

/-!
Shallow embedding of the pricing, promotion, order-settlement and checkout
logic of the NP_Pigments backend (Django app `store` and `adminpanel`).

Modelling conventions:
  * `DecimalField` money values are embedded as `ℚ` (all arithmetic the code
    performs on them — subtraction, multiplication by `pct / Decimal('100')`,
    `quantize(Decimal('1'), ROUND_DOWN)` on non-negative amounts — is exact in
    the decimal context the code runs under, so `ℚ` is faithful).
  * `DateTimeField` timestamps are embedded as `ℤ` (only order comparisons are
    performed on them); nullable fields become `Option`.
  * Python truthiness: a `Decimal` is falsy exactly when it is zero, `None` is
    falsy, a `datetime` is always truthy.  `self.discount_price and
    self.discount_price > 0` therefore holds iff the field is set and positive.
  * Foreign keys are embedded as the referenced row's primary key (`ℕ`).
-/

namespace NPStore

/-- `store/models.py Perfume`: the fields read or written by the pricing,
promotion and checkout logic.  `price` is the base price; `discount_source`
holds the pk of the promotion currently controlling the discount, if any. -/
structure Perfume where
  id : ℕ
  name : String
  sku : String
  brand : ℕ
  category : ℕ
  price : ℚ
  discount_percentage : ℕ
  discount_price : Option ℚ
  discount_start_date : Option ℤ
  discount_end_date : Option ℤ
  in_stock : Bool
  stock_quantity : ℕ
  discount_source : Option ℕ
deriving Repr, DecidableEq

/-- `store/models.py Pigment`: structurally identical to `Perfume` for the
pricing, promotion and checkout logic. -/
structure Pigment where
  id : ℕ
  name : String
  sku : String
  brand : ℕ
  category : ℕ
  price : ℚ
  discount_percentage : ℕ
  discount_price : Option ℚ
  discount_start_date : Option ℤ
  discount_end_date : Option ℤ
  in_stock : Bool
  stock_quantity : ℕ
  discount_source : Option ℕ
deriving Repr, DecidableEq

/-- Python condition `self.discount_price and self.discount_price > 0`:
true iff the optional decimal is set and positive (a stored `Decimal('0')` is
falsy, so the conjunction is false for it either way). -/
def discountPricePositive : Option ℚ → Bool
  | none => false
  | some d => decide (0 < d)

/-- The date-window guard at the top of `get_discounted_price`
(`store/models.py` lines 113-119 and 342-348): returns `true` exactly when one
of the three early `return self.price` branches fires, i.e. when the discount
window excludes the instant `now`.  With both dates set the code tests
`not (start <= now <= end)`; with only a start date it tests `start > now`;
with only an end date it tests `end < now`; with no dates the discount is
always considered active. -/
def discountWindowExcludes (start_date end_date : Option ℤ) (now : ℤ) : Bool :=
  match start_date, end_date with
  | some s, some e => !(decide (s ≤ now) && decide (now ≤ e))
  | some s, none => decide (s > now)
  | none, some e => decide (e < now)
  | none, none => false

/-- The tail of `get_discounted_price` after the window guard: fixed discount
price wins over the percentage, percentage discount is
`price - price * (pct / 100)`, otherwise the base price. -/
def discountedPriceTail (price : ℚ) (pct : ℕ) (dp : Option ℚ) : ℚ :=
  if discountPricePositive dp then dp.getD 0
  else if 0 < pct then price - price * ((pct : ℚ) / 100)
  else price

/-- `Perfume.get_discounted_price` (`store/models.py` lines 108-130), with the
current time passed explicitly instead of read from `timezone.now()`. -/
def Perfume.get_discounted_price (p : Perfume) (now : ℤ) : ℚ :=
  if discountWindowExcludes p.discount_start_date p.discount_end_date now then p.price
  else discountedPriceTail p.price p.discount_percentage p.discount_price

/-- `Pigment.get_discounted_price` (`store/models.py` lines 337-359): the same
body as the perfume version. -/
def Pigment.get_discounted_price (g : Pigment) (now : ℤ) : ℚ :=
  if discountWindowExcludes g.discount_start_date g.discount_end_date now then g.price
  else discountedPriceTail g.price g.discount_percentage g.discount_price

/-- `Perfume.is_on_sale` (`store/models.py` lines 132-143): with any date set
it returns the bare window test, and only with no dates at all does it look at
the discount values. -/
def Perfume.is_on_sale (p : Perfume) (now : ℤ) : Bool :=
  match p.discount_start_date, p.discount_end_date with
  | some s, some e => decide (s ≤ now) && decide (now ≤ e)
  | some s, none => decide (s ≤ now)
  | none, some e => decide (now ≤ e)
  | none, none =>
      decide (0 < p.discount_percentage) || discountPricePositive p.discount_price

/-- `Pigment.is_on_sale` (`store/models.py` lines 361-372): same body as the
perfume version. -/
def Pigment.is_on_sale (g : Pigment) (now : ℤ) : Bool :=
  match g.discount_start_date, g.discount_end_date with
  | some s, some e => decide (s ≤ now) && decide (now ≤ e)
  | some s, none => decide (s ≤ now)
  | none, some e => decide (now ≤ e)
  | none, none =>
      decide (0 < g.discount_percentage) || discountPricePositive g.discount_price

/-- `store/models.py VolumeOption`: a perfume volume variant with its own
price, discount and stock fields. -/
structure VolumeOption where
  volume_ml : ℕ
  price : ℚ
  discount_percentage : ℕ
  discount_price : Option ℚ
  stock_quantity : ℕ
  in_stock : Bool
  is_default : Bool
deriving Repr, DecidableEq

/-- `store/models.py WeightOption`: a pigment weight variant with its own
price, discount and stock fields. -/
structure WeightOption where
  weight_gr : ℕ
  price : ℚ
  discount_percentage : ℕ
  discount_price : Option ℚ
  stock_quantity : ℕ
  in_stock : Bool
  is_default : Bool
deriving Repr, DecidableEq

/-- `VolumeOption.get_discounted_price` (`store/models.py` lines 235-248).
The parent perfume (`self.perfume` in the source) is passed explicitly.
A local fixed discount price wins, then a local percentage; only with no local
discount does the code consult the parent, and then only the parent's
percentage (never the parent's fixed discount price). -/
def VolumeOption.get_discounted_price (v : VolumeOption) (perfume : Perfume) (now : ℤ) : ℚ :=
  if discountPricePositive v.discount_price then v.discount_price.getD 0
  else if 0 < v.discount_percentage then
    v.price - v.price * ((v.discount_percentage : ℚ) / 100)
  else if perfume.is_on_sale now && decide (0 < perfume.discount_percentage) then
    v.price - v.price * ((perfume.discount_percentage : ℚ) / 100)
  else v.price

/-- `WeightOption.get_discounted_price` (`store/models.py` lines 464-476):
same shape as the volume-option version, with the parent pigment passed
explicitly. -/
def WeightOption.get_discounted_price (w : WeightOption) (pigment : Pigment) (now : ℤ) : ℚ :=
  if discountPricePositive w.discount_price then w.discount_price.getD 0
  else if 0 < w.discount_percentage then
    w.price - w.price * ((w.discount_percentage : ℚ) / 100)
  else if pigment.is_on_sale now && decide (0 < pigment.discount_percentage) then
    w.price - w.price * ((pigment.discount_percentage : ℚ) / 100)
  else w.price

/-- Effective price as the specification states it (spec section 4.1, steps
1-6): base price outside the discount window; inside the window a positive
fixed `discount_price` wins regardless of the percentage; else a positive
percentage gives `base * (1 - pct / 100)`; else the base price. -/
def effective_price_spec (price : ℚ) (pct : ℕ) (dp : Option ℚ) (start_date end_date : Option ℤ)
    (now : ℤ) : ℚ :=
  if discountWindowExcludes start_date end_date now then price
  else if 0 < dp.getD 0 then dp.getD 0
  else if 0 < pct then price * (1 - (pct : ℚ) / 100)
  else price

/-- On-sale test as the specification states it: true iff a non-zero discount
(positive percentage or positive fixed price) is set and the discount window
includes `now`. -/
def is_on_sale_spec (pct : ℕ) (dp : Option ℚ) (start_date end_date : Option ℤ)
    (now : ℤ) : Bool :=
  (decide (0 < pct) || decide (0 < dp.getD 0))
    && !(discountWindowExcludes start_date end_date now)

/-- The six values of `Order.STATUS_CHOICES` (`store/models.py` lines
1007-1014). -/
inductive OrderStatus
  | pending | paid | processing | shipped | delivered | cancelled
deriving Repr, DecidableEq

/-- `LoyaltyTransaction.transaction_type` values. -/
inductive TransType
  | earn | redeem | refund | adjust
deriving Repr, DecidableEq

/-- `store/models.py LoyaltyAccount`: the per-user balance row.  The fields
are Django positive integers; they are embedded as `ℤ` mirroring Python `int`
arithmetic, with the explicit `max(..., 0)` flooring the code performs. -/
structure LoyaltyAccount where
  balance : ℤ
  lifetime_earned : ℤ
  lifetime_redeemed : ℤ
deriving Repr, DecidableEq

/-- `store/models.py LoyaltyTransaction`: an append-only ledger row. -/
structure LoyaltyTransaction where
  order_id : ℕ
  transaction_type : TransType
  points : ℤ
  balance_after : ℤ
deriving Repr, DecidableEq

/-- `store/models.py Order`: the fields `Order.save` reads or writes. -/
structure Order where
  id : ℕ
  status : OrderStatus
  subtotal : ℚ
  delivery_cost : ℚ
  loyalty_discount : ℚ
  loyalty_points_used : ℕ
  loyalty_points_earned : ℤ
  loyalty_awarded : Bool
  loyalty_refunded : Bool
  total : ℚ
deriving Repr, DecidableEq

/-- The slice of database state `Order.save` touches for one order of one
user: the stored row for this order's pk (`none` when the instance is new),
the user's `LoyaltyAccount` row, and the `LoyaltyTransaction` ledger. -/
structure SaveState where
  stored : Option Order
  account : LoyaltyAccount
  ledger : List LoyaltyTransaction
deriving Repr, DecidableEq

/-- `earned_points` as computed in `Order.save` (`store/models.py` lines
1123-1125): `int((max(subtotal - loyalty_discount, 0) * Decimal('0.05'))
.quantize(Decimal('1'), ROUND_DOWN))`.  On a non-negative amount
`ROUND_DOWN` to integral places is the floor. -/
def earnedPoints (subtotal loyalty_discount : ℚ) : ℤ :=
  ⌊max (subtotal - loyalty_discount) 0 * (5 / 100 : ℚ)⌋

/-- `Order.save` (`store/models.py` lines 1076-1163).

The method first refetches the stored row to capture the pre-save
`status` / `loyalty_awarded` / `loyalty_refunded` (the refetched status is
bound but never used by the subsequent logic), normalizes falsy amounts to
zero (an identity on `ℚ` values), recomputes `total`, writes the row, and
then runs the award / refund blocks.  The award block updates
`loyalty_points_earned` / `loyalty_awarded` through a targeted queryset
update, so the in-memory instance (returned first) keeps its old flags while
the stored row gets the new ones.  `self.user_id` is always set because
`Order.user` is a non-nullable foreign key. -/
def Order.save (self : Order) (st : SaveState) : Order × SaveState :=
  let previous_awarded :=
    match st.stored with
    | some previous => previous.loyalty_awarded
    | none => self.loyalty_awarded
  let previous_refunded :=
    match st.stored with
    | some previous => previous.loyalty_refunded
    | none => self.loyalty_refunded
  let delivery_cost := if self.delivery_cost = 0 then (0 : ℚ) else self.delivery_cost
  let loyalty_discount := if self.loyalty_discount = 0 then (0 : ℚ) else self.loyalty_discount
  let total0 := self.subtotal - loyalty_discount + delivery_cost
  let saved : Order :=
    { self with
      delivery_cost := delivery_cost
      loyalty_discount := loyalty_discount
      total := if total0 < 0 then 0 else total0 }
  let st1 : SaveState := { st with stored := some saved }
  let should_award : Bool :=
    (decide (saved.status = OrderStatus.paid) || decide (saved.status = OrderStatus.delivered))
      && !previous_awarded && !saved.loyalty_awarded
  let should_refund : Bool :=
    decide (saved.status = OrderStatus.cancelled) && decide (0 < saved.loyalty_points_used)
      && !previous_refunded && !saved.loyalty_refunded
  let st2 : SaveState :=
    if should_award then
      let earned_points := earnedPoints saved.subtotal saved.loyalty_discount
      let account :=
        if 0 < earned_points then
          { st1.account with
            balance := st1.account.balance + earned_points
            lifetime_earned := st1.account.lifetime_earned + earned_points }
        else st1.account
      let ledger :=
        if 0 < earned_points then
          st1.ledger ++ [{ order_id := saved.id
                           transaction_type := TransType.earn
                           points := earned_points
                           balance_after := account.balance }]
        else st1.ledger
      { stored := some { saved with
                         loyalty_points_earned := earned_points
                         loyalty_awarded := true }
        account := account
        ledger := ledger }
    else st1
  let st3 : SaveState :=
    if should_refund then
      let refund_points : ℤ := saved.loyalty_points_used
      let account :=
        { st2.account with
          balance := st2.account.balance + refund_points
          lifetime_redeemed := max (st2.account.lifetime_redeemed - refund_points) 0 }
      { stored := st2.stored.map fun o => { o with loyalty_refunded := true }
        account := account
        ledger := st2.ledger ++ [{ order_id := saved.id
                                   transaction_type := TransType.refund
                                   points := refund_points
                                   balance_after := account.balance }] }
    else st2
  (saved, st3)

/-- The `allowed_transitions` table of `adminpanel/views.py
order_status_update` (lines 671-678). -/
def allowed_transitions : OrderStatus → List OrderStatus
  | .pending => [.paid, .processing, .cancelled]
  | .paid => [.processing, .shipped, .cancelled]
  | .processing => [.shipped, .cancelled]
  | .shipped => [.delivered]
  | .delivered => []
  | .cancelled => []

/-- Outcome of the admin status-update view: `error` carries the
(current, requested) pair named in the rejection message, `state` the
database slice after the request. -/
structure StatusUpdateResult where
  error : Option (OrderStatus × OrderStatus)
  state : SaveState
deriving Repr, DecidableEq

/-- `adminpanel/views.py order_status_update` (lines 650-691) on the happy
path of its optimistic-concurrency preamble (no stale `updated_at`
supplied) and with a valid form.  The view binds
`OrderStatusForm(request.POST, instance=order)` and calls
`form.is_valid()`, whose `_post_clean` / `construct_instance` step writes
the posted status onto the bound `order` instance; only afterwards does
line 670 read `current_status = order.status`.  The in-memory order
therefore already carries the posted status when the guard at line 679
compares `new_status != current_status`, which is modelled here by reading
`current_status` from the updated instance.  On the accept path
`form.save()` runs `Order.save` on that instance.  A pk not in the
database is a 404 (modelled as a no-op with no transition error). -/
def order_status_update (new_status : OrderStatus) (st : SaveState) : StatusUpdateResult :=
  match st.stored with
  | none => { error := none, state := st }
  | some order =>
    let bound := { order with status := new_status }
    let current_status := bound.status
    if new_status ≠ current_status ∧ new_status ∉ allowed_transitions current_status then
      { error := some (current_status, new_status), state := st }
    else
      let result := Order.save bound st
      { error := none, state := result.2 }

/-- `Promotion.PROMO_TYPES` (`store/models.py` lines 541-546). -/
inductive PromoType
  | brand | category | manual | all
deriving Repr, DecidableEq

/-- `store/models.py Promotion`: the fields the discount engine uses.  The
many-to-many memberships are embedded as pk lists. -/
structure Promotion where
  id : ℕ
  promo_type : PromoType
  active : Bool
  start_at : Option ℤ
  end_at : Option ℤ
  discount_percentage : ℕ
  discount_price : Option ℚ
  brand : Option ℕ
  category : Option ℕ
  perfumes : List ℕ
  pigments : List ℕ
deriving Repr, DecidableEq

/-- Perfume half of `Promotion._product_queryset` (`store/models.py` lines
586-601): whether a perfume row is in the resolved target set.  A brand or
category promotion with its filter field unset keeps the unfiltered
queryset, i.e. targets everything. -/
def Promotion.targets_perfume (promo : Promotion) (p : Perfume) : Bool :=
  match promo.promo_type with
  | .brand => match promo.brand with
              | some b => decide (p.brand = b)
              | none => true
  | .category => match promo.category with
                 | some c => decide (p.category = c)
                 | none => true
  | .manual => decide (p.id ∈ promo.perfumes)
  | .all => true

/-- Pigment half of `Promotion._product_queryset`. -/
def Promotion.targets_pigment (promo : Promotion) (g : Pigment) : Bool :=
  match promo.promo_type with
  | .brand => match promo.brand with
              | some b => decide (g.brand = b)
              | none => true
  | .category => match promo.category with
                 | some c => decide (g.category = c)
                 | none => true
  | .manual => decide (g.id ∈ promo.pigments)
  | .all => true

/-- The per-row field assignment of `Promotion.apply_discounts`
(`store/models.py` lines 611-620): overwrite the discount fields with the
promotion's and claim the row via `discount_source`. -/
def applyPerfumeDiscount (promo : Promotion) (start_date : ℤ) (p : Perfume) : Perfume :=
  { p with
    discount_percentage := promo.discount_percentage
    discount_price := promo.discount_price
    discount_start_date := some start_date
    discount_end_date := promo.end_at
    discount_source := some promo.id }

/-- Pigment version of the `apply_discounts` per-row assignment. -/
def applyPigmentDiscount (promo : Promotion) (start_date : ℤ) (g : Pigment) : Pigment :=
  { g with
    discount_percentage := promo.discount_percentage
    discount_price := promo.discount_price
    discount_start_date := some start_date
    discount_end_date := promo.end_at
    discount_source := some promo.id }

/-- `Promotion.apply_discounts` (`store/models.py` lines 603-632) over the
product tables.  `start = self.start_at or now` (a `datetime` is always
truthy, so only `None` falls back to `now`); each resolved target gets the
promotion's discount fields, then the promotion is marked active. -/
def Promotion.apply_discounts (promo : Promotion) (now : ℤ)
    (perfumes : List Perfume) (pigments : List Pigment) :
    List Perfume × List Pigment × Promotion :=
  let start_date := promo.start_at.getD now
  ( perfumes.map fun p =>
      if promo.targets_perfume p then applyPerfumeDiscount promo start_date p else p,
    pigments.map fun g =>
      if promo.targets_pigment g then applyPigmentDiscount promo start_date g else g,
    { promo with active := true } )

/-- The per-row field reset of `Promotion.clear_discounts`
(`store/models.py` lines 639-648): all discount fields back to neutral. -/
def clearPerfumeDiscount (p : Perfume) : Perfume :=
  { p with
    discount_percentage := 0
    discount_price := none
    discount_start_date := none
    discount_end_date := none
    discount_source := none }

/-- Pigment version of the `clear_discounts` per-row reset. -/
def clearPigmentDiscount (g : Pigment) : Pigment :=
  { g with
    discount_percentage := 0
    discount_price := none
    discount_start_date := none
    discount_end_date := none
    discount_source := none }

/-- `Promotion.clear_discounts` (`store/models.py` lines 634-660): reset the
discount fields of exactly the rows whose `discount_source` equals this
promotion, then mark the promotion inactive. -/
def Promotion.clear_discounts (promo : Promotion)
    (perfumes : List Perfume) (pigments : List Pigment) :
    List Perfume × List Pigment × Promotion :=
  ( perfumes.map fun p =>
      if p.discount_source = some promo.id then clearPerfumeDiscount p else p,
    pigments.map fun g =>
      if g.discount_source = some promo.id then clearPigmentDiscount g else g,
    { promo with active := false } )

/-- A cart line's product together with its optionally selected variant
(`store/models.py CartItem`: the `perfume` / `pigment` foreign key plus the
`volume_option` / `weight_option` foreign key, whose parent is that same
product). -/
inductive CartTarget
  | perfume (product : Perfume) (variant : Option VolumeOption)
  | pigment (product : Pigment) (variant : Option WeightOption)
deriving Repr, DecidableEq

/-- `cart_item.product.name`. -/
def CartTarget.product_name : CartTarget → String
  | .perfume p _ => p.name
  | .pigment g _ => g.name

/-- `getattr(cart_item.product, 'sku', '')`. -/
def CartTarget.product_sku : CartTarget → String
  | .perfume p _ => p.sku
  | .pigment g _ => g.sku

/-- `cart_item.product.in_stock` — the product's own flag, not the
variant's. -/
def CartTarget.product_in_stock : CartTarget → Bool
  | .perfume p _ => p.in_stock
  | .pigment g _ => g.in_stock

/-- `cart_item.product.stock_quantity` — the product's own stock, not the
variant's. -/
def CartTarget.product_stock_quantity : CartTarget → ℕ
  | .perfume p _ => p.stock_quantity
  | .pigment g _ => g.stock_quantity

/-- Stock of the selected variant when one is selected, else the product's
(what spec section 4.5 says the check should read). -/
def CartTarget.selected_stock_quantity : CartTarget → ℕ
  | .perfume _ (some v) => v.stock_quantity
  | .perfume p none => p.stock_quantity
  | .pigment _ (some w) => w.stock_quantity
  | .pigment g none => g.stock_quantity

/-- `store/models.py CartItem`: one cart line. -/
structure CartItem where
  target : CartTarget
  quantity : ℕ
deriving Repr, DecidableEq

/-- The `CartItem.unit_price` property (`store/models.py` lines 984-998):
the selected variant's discounted price when a variant is selected, else the
product's discounted price. -/
def CartItem.unit_price (ci : CartItem) (now : ℤ) : ℚ :=
  match ci.target with
  | .perfume p (some v) => v.get_discounted_price p now
  | .perfume p none => p.get_discounted_price now
  | .pigment g (some w) => w.get_discounted_price g now
  | .pigment g none => g.get_discounted_price now

/-- One entry of `items_data` in `OrderCreateSerializer.create`: a cart line
plus the requested quantity (equal to the cart quantity when the items come
from the cart itself). -/
structure CheckoutLine where
  item : CartItem
  requested : ℕ
deriving Repr, DecidableEq

/-- The `OrderItem` row built by `OrderCreateSerializer.create`
(`store/serializers.py` lines 539-547).  The serializer fills in name, sku,
quantity and prices; it never assigns `selected_volume_ml` /
`selected_weight_gr`, so they keep their null default. -/
structure OrderItemRec where
  product_name : String
  product_sku : String
  selected_volume_ml : Option ℕ
  selected_weight_gr : Option ℕ
  quantity : ℕ
  unit_price : ℚ
  total_price : ℚ
deriving Repr, DecidableEq

/-- The `ValidationError`s `OrderCreateSerializer.create` can raise, each
carrying the product name its message interpolates. -/
inductive CheckoutError
  | empty_order
  | cart_quantity_exceeded (product_name : String)
  | out_of_stock (product_name : String)
  | insufficient_stock (product_name : String) (available : ℕ)
deriving Repr, DecidableEq

/-- The product name a checkout error message names (`empty_order` carries
none). -/
def CheckoutError.named_product : CheckoutError → Option String
  | .empty_order => none
  | .cart_quantity_exceeded n => some n
  | .out_of_stock n => some n
  | .insufficient_stock n _ => some n

/-- The per-line validation of the first loop of
`OrderCreateSerializer.create` (`store/serializers.py` lines 525-536):
requested quantity within the cart quantity, then `product.in_stock`, then
`product.stock_quantity >= quantity` — all read from the product row even
when the cart line has a selected variant. -/
def checkLine (l : CheckoutLine) : Option CheckoutError :=
  if l.item.quantity < l.requested then
    some (.cart_quantity_exceeded l.item.target.product_name)
  else if l.item.target.product_in_stock = false then
    some (.out_of_stock l.item.target.product_name)
  else if l.item.target.product_stock_quantity < l.requested then
    some (.insufficient_stock l.item.target.product_name l.item.target.product_stock_quantity)
  else none

/-- The `OrderItem` snapshot the first loop builds for a passing line
(`store/serializers.py` lines 539-547). -/
def buildOrderItem (now : ℤ) (l : CheckoutLine) : OrderItemRec :=
  { product_name := l.item.target.product_name
    product_sku := l.item.target.product_sku
    selected_volume_ml := none
    selected_weight_gr := none
    quantity := l.requested
    unit_price := l.item.unit_price now
    total_price := l.item.unit_price now * (l.requested : ℚ) }

/-- The first loop of `OrderCreateSerializer.create`: validate every line and
collect the order items, aborting on the first failing line before any
mutation. -/
def validateLines (now : ℤ) : List CheckoutLine → Except CheckoutError (List OrderItemRec)
  | [] => .ok []
  | l :: ls =>
    match checkLine l with
    | some e => .error e
    | none => (validateLines now ls).map fun items => buildOrderItem now l :: items

/-- The stock decrement of the second loop (`store/serializers.py` lines
559-563): `product.stock_quantity -= quantity`, and `in_stock = False` when
the remaining stock is exactly 0.  The decrement targets the product row;
a selected variant is passed through untouched. -/
def decrementStock (t : CartTarget) (qty : ℕ) : CartTarget :=
  match t with
  | .perfume p v =>
    let stock := p.stock_quantity - qty
    .perfume { p with
               stock_quantity := stock
               in_stock := if stock = 0 then false else p.in_stock } v
  | .pigment g w =>
    let stock := g.stock_quantity - qty
    .pigment { g with
               stock_quantity := stock
               in_stock := if stock = 0 then false else g.in_stock } w

/-- Result of the second loop on one cart line: the updated product/variant
pair and the remaining cart quantity (`none` when the line was deleted). -/
structure LineResult where
  target : CartTarget
  cart_quantity : Option ℕ
deriving Repr, DecidableEq

/-- Body of the second loop of `OrderCreateSerializer.create`
(`store/serializers.py` lines 555-570): decrement product stock, decrement
the cart line and delete it when exhausted. -/
def applyLine (l : CheckoutLine) : LineResult :=
  { target := decrementStock l.item.target l.requested
    cart_quantity :=
      let q := l.item.quantity - l.requested
      if q = 0 then none else some q }

/-- Checkout outcome: the order's subtotal, its item snapshots, and the cart
lines after stock and cart updates. -/
structure CheckoutResult where
  subtotal : ℚ
  items : List OrderItemRec
  lines : List LineResult
deriving Repr, DecidableEq

/-- `OrderCreateSerializer.create` (`store/serializers.py` lines 491-576):
reject an empty order, validate every line (first loop), then on success
apply the stock and cart mutations (second loop).  The subtotal accumulated
by the first loop is the sum of the items' total prices. -/
def checkout (now : ℤ) (lines : List CheckoutLine) : Except CheckoutError CheckoutResult :=
  if lines.isEmpty then .error .empty_order
  else
    (validateLines now lines).map fun items =>
      { subtotal := (items.map OrderItemRec.total_price).sum
        items := items
        lines := lines.map applyLine }

/-- Closed form of the row `Order.save` writes before the loyalty blocks:
the instance with `total` recomputed (the falsy-amount normalization is the
identity on `ℚ`). -/
def savedOrder (o : Order) : Order :=
  { o with total := max 0 (o.subtotal - o.loyalty_discount + o.delivery_cost) }

/-- Closed form of the stored row after the award block's targeted update:
the saved row with `loyalty_points_earned` set and `loyalty_awarded`
raised. -/
def awardedRow (o : Order) : Order :=
  { savedOrder o with
    loyalty_points_earned := earnedPoints o.subtotal o.loyalty_discount
    loyalty_awarded := true }

/-- The three-step scenario of the promotion-isolation property: apply
promotion `A`, then promotion `B`, then clear `A`. -/
def promoScenario (A B : Promotion) (now1 now2 : ℤ)
    (perfumes : List Perfume) (pigments : List Pigment) :
    List Perfume × List Pigment × Promotion :=
  let s1 := A.apply_discounts now1 perfumes pigments
  let s2 := B.apply_discounts now2 s1.1 s1.2.1
  A.clear_discounts s2.1 s2.2.1

/-- Concrete perfume used to evaluate the theorems: base price 100, a
20 percent discount, no dates. -/
def examplePerfume : Perfume :=
  { id := 1, name := "Noir", sku := "P1", brand := 1, category := 1
    price := 100, discount_percentage := 20, discount_price := none
    discount_start_date := none, discount_end_date := none
    in_stock := true, stock_quantity := 5, discount_source := none }

/-- Concrete perfume with an active date window but no discount values set:
the input on which `is_on_sale` and the specification disagree. -/
def windowOnlyPerfume : Perfume :=
  { examplePerfume with
    discount_percentage := 0
    discount_start_date := some 0
    discount_end_date := some 10 }

/-- Concrete pigment counterpart of `windowOnlyPerfume`. -/
def windowOnlyPigment : Pigment :=
  { id := 2, name := "Ochre", sku := "G2", brand := 1, category := 2
    price := 100, discount_percentage := 0, discount_price := none
    discount_start_date := some 0, discount_end_date := some 10
    in_stock := true, stock_quantity := 5, discount_source := none }

/-- Volume option with a local percentage discount. -/
def localDiscountVolume : VolumeOption :=
  { volume_ml := 50, price := 50, discount_percentage := 10, discount_price := none
    stock_quantity := 3, in_stock := true, is_default := false }

/-- Volume option with no local discount. -/
def plainVolume : VolumeOption :=
  { volume_ml := 100, price := 80, discount_percentage := 0, discount_price := none
    stock_quantity := 3, in_stock := true, is_default := true }

/-- Weight option with a local fixed discount price. -/
def localDiscountWeight : WeightOption :=
  { weight_gr := 10, price := 30, discount_percentage := 0, discount_price := some 7
    stock_quantity := 3, in_stock := true, is_default := false }

/-- Weight option with no local discount. -/
def plainWeight : WeightOption :=
  { weight_gr := 25, price := 60, discount_percentage := 0, discount_price := none
    stock_quantity := 3, in_stock := true, is_default := true }

/-- Concrete pigment with a 30 percent discount and no dates (on sale). -/
def examplePigment : Pigment :=
  { id := 3, name := "Umber", sku := "G3", brand := 2, category := 2
    price := 100, discount_percentage := 30, discount_price := none
    discount_start_date := none, discount_end_date := none
    in_stock := true, stock_quantity := 9, discount_source := none }

/-- Concrete order matching the specification's scenario: subtotal 500,
loyalty discount 50, delivery cost 30, being saved as paid. -/
def paidOrder : Order :=
  { id := 1, status := OrderStatus.paid, subtotal := 500, delivery_cost := 30
    loyalty_discount := 50, loyalty_points_used := 0, loyalty_points_earned := 0
    loyalty_awarded := false, loyalty_refunded := false, total := 0 }

/-- The stored row for `paidOrder` before the save: still pending, no points
awarded. -/
def pendingPrev : Order :=
  { paidOrder with status := OrderStatus.pending, total := 480 }

/-- Concrete loyalty account. -/
def exampleAccount : LoyaltyAccount :=
  { balance := 100, lifetime_earned := 200, lifetime_redeemed := 50 }

/-- Small order whose discounted subtotal (15) is below 20, so the 5 percent
accrual floors to zero points. -/
def smallOrder : Order :=
  { id := 4, status := OrderStatus.paid, subtotal := 15, delivery_cost := 0
    loyalty_discount := 0, loyalty_points_used := 0, loyalty_points_earned := 0
    loyalty_awarded := false, loyalty_refunded := false, total := 0 }

/-- Stored row for `smallOrder` before the save. -/
def smallPrev : Order :=
  { smallOrder with status := OrderStatus.pending, total := 15 }

/-- A stored row that is already `paid` with `loyalty_awarded` still false:
re-saving it with the same status makes the award block fire even though no
status transition happened. -/
def repaidPrev : Order :=
  { id := 7, status := OrderStatus.paid, subtotal := 500, delivery_cost := 30
    loyalty_discount := 50, loyalty_points_used := 0, loyalty_points_earned := 0
    loyalty_awarded := false, loyalty_refunded := false, total := 480 }

/-- Database slice holding `repaidPrev` as the stored row. -/
def repaidState : SaveState :=
  { stored := some repaidPrev, account := { balance := 0, lifetime_earned := 0, lifetime_redeemed := 0 }
    ledger := [] }

/-- A shipped order, for exercising the transition guard. -/
def shippedOrder : Order :=
  { id := 9, status := OrderStatus.shipped, subtotal := 100, delivery_cost := 10
    loyalty_discount := 0, loyalty_points_used := 0, loyalty_points_earned := 0
    loyalty_awarded := true, loyalty_refunded := false, total := 110 }

/-- Database slice holding `shippedOrder`. -/
def shippedState : SaveState :=
  { stored := some shippedOrder, account := exampleAccount, ledger := [] }

/-- Manual promotion A targeting perfume 1 and pigment 31. -/
def promoA : Promotion :=
  { id := 10, promo_type := PromoType.manual, active := false
    start_at := some 0, end_at := some 100, discount_percentage := 25
    discount_price := none, brand := none, category := none
    perfumes := [1], pigments := [31] }

/-- Manual promotion B targeting perfume 2, disjoint from A. -/
def promoB : Promotion :=
  { id := 11, promo_type := PromoType.manual, active := false
    start_at := none, end_at := none, discount_percentage := 40
    discount_price := none, brand := none, category := none
    perfumes := [2], pigments := [] }

/-- Perfume table for the promotion scenario: products 1 (A's), 2 (B's) and
3 (neither, manually discounted). -/
def scenarioPerfumes : List Perfume :=
  [ { examplePerfume with id := 1 },
    { examplePerfume with id := 2, name := "Fleur", sku := "P2" },
    { examplePerfume with id := 3, name := "Bois", sku := "P3", discount_percentage := 15 } ]

/-- Pigment table for the promotion scenario: product 31 (A's) and 32
(neither). -/
def scenarioPigments : List Pigment :=
  [ { examplePigment with id := 31 },
    { examplePigment with id := 32, name := "Sienna", sku := "G32" } ]

/-- Perfume backing the checkout counterexample: plenty of product stock. -/
def checkoutPerfume : Perfume :=
  { id := 5, name := "Aurum", sku := "SKU5", brand := 1, category := 1
    price := 20, discount_percentage := 0, discount_price := none
    discount_start_date := none, discount_end_date := none
    in_stock := true, stock_quantity := 5, discount_source := none }

/-- Selected volume option that is out of stock. -/
def emptyVolume : VolumeOption :=
  { volume_ml := 50, price := 10, discount_percentage := 0, discount_price := none
    stock_quantity := 0, in_stock := false, is_default := true }

/-- Checkout line requesting one unit of the out-of-stock variant of an
in-stock product. -/
def variantLine : CheckoutLine :=
  { item := { target := CartTarget.perfume checkoutPerfume (some emptyVolume), quantity := 1 }
    requested := 1 }

instance : DecidableEq (Except CheckoutError CheckoutResult) := fun a b =>
  match a, b with
  | .ok x, .ok y =>
      if h : x = y then isTrue (by rw [h]) else isFalse (by simp [h])
  | .error e, .error f =>
      if h : e = f then isTrue (by rw [h]) else isFalse (by simp [h])
  | .ok _, .error _ => isFalse (by simp)
  | .error _, .ok _ => isFalse (by simp)

theorem discountPricePositive_eq (dp : Option ℚ) :
    discountPricePositive dp = decide (0 < dp.getD 0) := by
  cases dp <;> simp [discountPricePositive]

theorem discountedPriceTail_eq (price : ℚ) (pct : ℕ) (dp : Option ℚ) :
    discountedPriceTail price pct dp =
      if 0 < dp.getD 0 then dp.getD 0
      else if 0 < pct then price * (1 - (pct : ℚ) / 100)
      else price := by
  rw [discountedPriceTail, discountPricePositive_eq]
  simp only [decide_eq_true_eq]
  split_ifs with h1 h2
  · rfl
  · ring
  · rfl

/-- C1: for every product (Perfume or Pigment), the effective-price
computation returns the base price whenever the discount window excludes the
current time; when the window is active and a fixed positive
`discount_price` is set it returns that price regardless of the percentage;
when the window is active, no fixed price is set and the percentage is
positive it returns `price * (1 - pct / 100)`; otherwise the base price. -/
theorem get_discounted_price_resolution :
    (∀ (p : Perfume) (now : ℤ),
      p.get_discounted_price now =
        effective_price_spec p.price p.discount_percentage p.discount_price
          p.discount_start_date p.discount_end_date now) ∧
    (∀ (g : Pigment) (now : ℤ),
      g.get_discounted_price now =
        effective_price_spec g.price g.discount_percentage g.discount_price
          g.discount_start_date g.discount_end_date now) := by
  constructor
  · intro p now
    rw [Perfume.get_discounted_price, effective_price_spec, discountedPriceTail_eq]
  · intro g now
    rw [Pigment.get_discounted_price, effective_price_spec, discountedPriceTail_eq]

/-- C9 counterexample: with an active date window but zero percentage and no
fixed price, `is_on_sale` returns true although no non-zero discount is set,
so it does not equal the specification's on-sale test.  This holds on both
product kinds. -/
theorem is_on_sale_window_only_counterexample :
    windowOnlyPerfume.is_on_sale 5 = true ∧
    is_on_sale_spec windowOnlyPerfume.discount_percentage windowOnlyPerfume.discount_price
      windowOnlyPerfume.discount_start_date windowOnlyPerfume.discount_end_date 5 = false ∧
    windowOnlyPigment.is_on_sale 5 = true ∧
    is_on_sale_spec windowOnlyPigment.discount_percentage windowOnlyPigment.discount_price
      windowOnlyPigment.discount_start_date windowOnlyPigment.discount_end_date 5 = false := by
  refine ⟨rfl, rfl, rfl, rfl⟩

/-- C9 amended: `is_on_sale` mirrors the window logic only; with at least one
discount date set it returns exactly the window test, ignoring the discount
values, and only with no dates at all does it require a non-zero discount
(positive percentage or positive fixed price). -/
theorem is_on_sale_characterization :
    (∀ (p : Perfume) (now : ℤ),
      p.is_on_sale now =
        if p.discount_start_date = none ∧ p.discount_end_date = none then
          decide (0 < p.discount_percentage) || discountPricePositive p.discount_price
        else
          !(discountWindowExcludes p.discount_start_date p.discount_end_date now)) ∧
    (∀ (g : Pigment) (now : ℤ),
      g.is_on_sale now =
        if g.discount_start_date = none ∧ g.discount_end_date = none then
          decide (0 < g.discount_percentage) || discountPricePositive g.discount_price
        else
          !(discountWindowExcludes g.discount_start_date g.discount_end_date now)) := by
  constructor
  · intro p now
    rcases hs : p.discount_start_date with _ | s <;> rcases he : p.discount_end_date with _ | e <;>
      simp [Perfume.is_on_sale, discountWindowExcludes, hs, he, ← decide_not, not_lt]
  · intro g now
    rcases hs : g.discount_start_date with _ | s <;> rcases he : g.discount_end_date with _ | e <;>
      simp [Pigment.is_on_sale, discountWindowExcludes, hs, he, ← decide_not, not_lt]

/-- C8: a variant's price resolution never combines parent and local
discounts.  With any local discount (positive fixed price or positive
percentage) the parent product and the time are ignored entirely and the
price is the local `discountedPriceTail`; with no local discount the price
is derived from the parent's percentage alone (when the parent is on sale),
else the variant's base price. -/
theorem variant_price_never_combines :
    (∀ (v : VolumeOption) (pf pf' : Perfume) (now now' : ℤ),
      (discountPricePositive v.discount_price || decide (0 < v.discount_percentage)) = true →
        v.get_discounted_price pf now = v.get_discounted_price pf' now' ∧
        v.get_discounted_price pf now =
          discountedPriceTail v.price v.discount_percentage v.discount_price) ∧
    (∀ (v : VolumeOption) (pf : Perfume) (now : ℤ),
      (discountPricePositive v.discount_price || decide (0 < v.discount_percentage)) = false →
        v.get_discounted_price pf now =
          if pf.is_on_sale now && decide (0 < pf.discount_percentage) then
            v.price - v.price * ((pf.discount_percentage : ℚ) / 100)
          else v.price) ∧
    (∀ (w : WeightOption) (pg pg' : Pigment) (now now' : ℤ),
      (discountPricePositive w.discount_price || decide (0 < w.discount_percentage)) = true →
        w.get_discounted_price pg now = w.get_discounted_price pg' now' ∧
        w.get_discounted_price pg now =
          discountedPriceTail w.price w.discount_percentage w.discount_price) ∧
    (∀ (w : WeightOption) (pg : Pigment) (now : ℤ),
      (discountPricePositive w.discount_price || decide (0 < w.discount_percentage)) = false →
        w.get_discounted_price pg now =
          if pg.is_on_sale now && decide (0 < pg.discount_percentage) then
            w.price - w.price * ((pg.discount_percentage : ℚ) / 100)
          else w.price) := by
  have keyV : ∀ (v : VolumeOption) (pf : Perfume) (now : ℤ),
      (discountPricePositive v.discount_price || decide (0 < v.discount_percentage)) = true →
      v.get_discounted_price pf now =
        discountedPriceTail v.price v.discount_percentage v.discount_price := by
    intro v pf now h
    rw [VolumeOption.get_discounted_price, discountedPriceTail]
    rcases hdp : discountPricePositive v.discount_price with _ | _
    · simp only [hdp, Bool.false_or] at h
      simp [hdp, of_decide_eq_true h]
    · simp [hdp]
  have keyW : ∀ (w : WeightOption) (pg : Pigment) (now : ℤ),
      (discountPricePositive w.discount_price || decide (0 < w.discount_percentage)) = true →
      w.get_discounted_price pg now =
        discountedPriceTail w.price w.discount_percentage w.discount_price := by
    intro w pg now h
    rw [WeightOption.get_discounted_price, discountedPriceTail]
    rcases hdp : discountPricePositive w.discount_price with _ | _
    · simp only [hdp, Bool.false_or] at h
      simp [hdp, of_decide_eq_true h]
    · simp [hdp]
  refine ⟨?_, ?_, ?_, ?_⟩
  · intro v pf pf' now now' h
    exact ⟨(keyV v pf now h).trans (keyV v pf' now' h).symm, keyV v pf now h⟩
  · intro v pf now h
    rw [Bool.or_eq_false_iff] at h
    rw [VolumeOption.get_discounted_price]
    simp [h.1, of_decide_eq_false h.2]
  · intro w pg pg' now now' h
    exact ⟨(keyW w pg now h).trans (keyW w pg' now' h).symm, keyW w pg now h⟩
  · intro w pg now h
    rw [Bool.or_eq_false_iff] at h
    rw [WeightOption.get_discounted_price]
    simp [h.1, of_decide_eq_false h.2]

/-- Witness for C8 at concrete variants and parents: a locally discounted
volume option prices identically under two different parents, a plain volume
option inherits the parent percentage, and likewise for weight options. -/
theorem variant_price_never_combines_witness :
    (localDiscountVolume.get_discounted_price examplePerfume 0 =
      localDiscountVolume.get_discounted_price windowOnlyPerfume 99) ∧
    (plainVolume.get_discounted_price examplePerfume 0 =
      if examplePerfume.is_on_sale 0 && decide (0 < examplePerfume.discount_percentage) then
        plainVolume.price - plainVolume.price * ((examplePerfume.discount_percentage : ℚ) / 100)
      else plainVolume.price) ∧
    (localDiscountWeight.get_discounted_price examplePigment 0 =
      localDiscountWeight.get_discounted_price windowOnlyPigment 99) ∧
    (plainWeight.get_discounted_price examplePigment 0 =
      if examplePigment.is_on_sale 0 && decide (0 < examplePigment.discount_percentage) then
        plainWeight.price - plainWeight.price * ((examplePigment.discount_percentage : ℚ) / 100)
      else plainWeight.price) :=
  ⟨(variant_price_never_combines.1 localDiscountVolume examplePerfume windowOnlyPerfume 0 99
      (by decide)).1,
   variant_price_never_combines.2.1 plainVolume examplePerfume 0 (by decide),
   (variant_price_never_combines.2.2.1 localDiscountWeight examplePigment windowOnlyPigment 0 99
      (by decide)).1,
   variant_price_never_combines.2.2.2 plainWeight examplePigment 0 (by decide)⟩

theorem normalize_amount (x : ℚ) : (if x = 0 then (0 : ℚ) else x) = x := by
  split_ifs with h <;> simp [h]

theorem clampNonneg (t : ℚ) : (if t < 0 then (0 : ℚ) else t) = max 0 t := by
  rcases lt_or_le t 0 with h | h
  · simp [h, max_eq_left h.le]
  · simp [not_lt.mpr h, max_eq_right h]

theorem save_fst (self : Order) (st : SaveState) :
    (Order.save self st).1 = savedOrder self := by
  simp [Order.save, savedOrder, normalize_amount, clampNonneg]

theorem ite_stored_map (c : Prop) [Decidable c] (x y : SaveState) (f : Order → ℚ) (T : ℚ)
    (hx : x.stored.map f = some T) (hy : y.stored.map f = some T) :
    ((if c then x else y).stored).map f = some T := by
  split_ifs <;> assumption

theorem save_stored_total (self : Order) (st : SaveState) :
    ((Order.save self st).2.stored).map Order.total
      = some (max 0 (self.subtotal - self.loyalty_discount + self.delivery_cost)) := by
  simp only [Order.save]
  apply ite_stored_map
  · simp only [Option.map_map, Function.comp]
    apply ite_stored_map <;> simp [normalize_amount, clampNonneg]
  · apply ite_stored_map <;> simp [normalize_amount, clampNonneg]

/-- C6: after every save, the order's total equals
`max(0, subtotal - loyalty_discount + delivery_cost)` — on the returned
instance and on the stored row — and the recomputation is idempotent:
re-saving the saved instance yields the same total. -/
theorem order_total_invariant :
    ∀ (self : Order) (st : SaveState),
      (Order.save self st).1.total
          = max 0 (self.subtotal - self.loyalty_discount + self.delivery_cost) ∧
      ((Order.save self st).2.stored).map Order.total
          = some (max 0 (self.subtotal - self.loyalty_discount + self.delivery_cost)) ∧
      (Order.save (Order.save self st).1 (Order.save self st).2).1.total
          = (Order.save self st).1.total := by
  intro self st
  refine ⟨?_, save_stored_total self st, ?_⟩
  · rw [save_fst]; rfl
  · rw [save_fst, save_fst]
    simp [savedOrder]

/-- C7 amended: the award and refund checks in `Order.save` consult the
pre-save `loyalty_awarded` / `loyalty_refunded` flags fetched from storage,
not the pre-save status: the outcome of a save is invariant under the stored
row's status, and with both stored flags raised the save never touches the
loyalty account or the ledger. -/
theorem loyalty_guard_uses_flags :
    (∀ (self prev : Order) (acc : LoyaltyAccount) (led : List LoyaltyTransaction)
        (s1 s2 : OrderStatus),
      Order.save self { stored := some { prev with status := s1 }, account := acc, ledger := led }
        = Order.save self { stored := some { prev with status := s2 }, account := acc, ledger := led }) ∧
    (∀ (self prev : Order) (acc : LoyaltyAccount) (led : List LoyaltyTransaction),
      prev.loyalty_awarded = true → prev.loyalty_refunded = true →
        (Order.save self { stored := some prev, account := acc, ledger := led }).2.account = acc ∧
        (Order.save self { stored := some prev, account := acc, ledger := led }).2.ledger = led) := by
  constructor
  · intro self prev acc led s1 s2
    rfl
  · intro self prev acc led hA hR
    constructor <;> simp [Order.save, hA, hR]

/-- Witness for the amended C7: save outcome at concrete orders is the same
under two different stored statuses, and a save over a fully flagged stored
row leaves account and ledger unchanged. -/
theorem loyalty_guard_uses_flags_witness :
    (Order.save paidOrder
        { stored := some { pendingPrev with status := OrderStatus.pending }
          account := exampleAccount, ledger := [] }
      = Order.save paidOrder
        { stored := some { pendingPrev with status := OrderStatus.shipped }
          account := exampleAccount, ledger := [] }) ∧
    ((Order.save paidOrder
        { stored := some { shippedOrder with loyalty_refunded := true }
          account := exampleAccount, ledger := [] }).2.account = exampleAccount ∧
     (Order.save paidOrder
        { stored := some { shippedOrder with loyalty_refunded := true }
          account := exampleAccount, ledger := [] }).2.ledger = []) :=
  ⟨loyalty_guard_uses_flags.1 paidOrder pendingPrev exampleAccount []
      OrderStatus.pending OrderStatus.shipped,
   loyalty_guard_uses_flags.2 paidOrder { shippedOrder with loyalty_refunded := true }
      exampleAccount [] rfl rfl⟩

theorem save_award (o prev : Order) (acc : LoyaltyAccount) (led : List LoyaltyTransaction)
    (hprev : prev.loyalty_awarded = false) (hself : o.loyalty_awarded = false)
    (hst : o.status = OrderStatus.paid ∨ o.status = OrderStatus.delivered)
    (hpos : 0 < earnedPoints o.subtotal o.loyalty_discount) :
    Order.save o { stored := some prev, account := acc, ledger := led } =
      (savedOrder o,
       { stored := some (awardedRow o)
         account := { balance := acc.balance + earnedPoints o.subtotal o.loyalty_discount
                      lifetime_earned :=
                        acc.lifetime_earned + earnedPoints o.subtotal o.loyalty_discount
                      lifetime_redeemed := acc.lifetime_redeemed }
         ledger := led ++ [{ order_id := o.id
                             transaction_type := TransType.earn
                             points := earnedPoints o.subtotal o.loyalty_discount
                             balance_after :=
                               acc.balance + earnedPoints o.subtotal o.loyalty_discount }] }) := by
  rcases hst with h | h <;>
    simp [Order.save, h, hprev, hself, normalize_amount, clampNonneg, hpos,
          savedOrder, awardedRow]

theorem save_noop_flagged (self prev : Order) (acc : LoyaltyAccount)
    (led : List LoyaltyTransaction)
    (hA : prev.loyalty_awarded = true)
    (hstatus : self.status ≠ OrderStatus.cancelled) :
    Order.save self { stored := some prev, account := acc, ledger := led }
      = (savedOrder self, { stored := some (savedOrder self), account := acc, ledger := led }) := by
  simp [Order.save, hA, hstatus, normalize_amount, clampNonneg, savedOrder]

theorem savedOrder_awardedRow (o : Order) : savedOrder (awardedRow o) = awardedRow o := by
  simp [savedOrder, awardedRow]

/-- C7 counterexample: a stored row that is already `paid` with
`loyalty_awarded` still false is re-saved with the same status, and the
award block fires (the account balance changes) although no status
transition happened — the guard does not compare against the pre-save
status. -/
theorem award_fires_without_status_change :
    repaidState.stored = some repaidPrev ∧
    repaidPrev.status = OrderStatus.paid ∧
    (Order.save repaidPrev repaidState).2.account.balance ≠ repaidState.account.balance := by
  refine ⟨rfl, rfl, ?_⟩
  have h := save_award repaidPrev repaidPrev
    { balance := 0, lifetime_earned := 0, lifetime_redeemed := 0 } [] rfl rfl (Or.inl rfl)
    (by norm_num [earnedPoints, repaidPrev])
  have hst : repaidState =
      { stored := some repaidPrev
        account := { balance := 0, lifetime_earned := 0, lifetime_redeemed := 0 }
        ledger := [] } := rfl
  rw [hst, h]
  norm_num [earnedPoints, repaidPrev]

/-- C2: saving an order as paid (or delivered) with `loyalty_awarded` still
false credits `earnedPoints` to the account (balance and lifetime_earned),
appends an `earn` transaction whose `balance_after` is the post-increment
balance, and stores the row with `loyalty_points_earned` set and
`loyalty_awarded` true; saving the refetched row again with the same status
is a complete no-op for accrual, because the stored flag is now true. -/
theorem loyalty_award_exactly_once (o prev : Order) (acc : LoyaltyAccount)
    (led : List LoyaltyTransaction)
    (hprev : prev.loyalty_awarded = false) (hself : o.loyalty_awarded = false)
    (hst : o.status = OrderStatus.paid ∨ o.status = OrderStatus.delivered)
    (hpos : 0 < earnedPoints o.subtotal o.loyalty_discount) :
    Order.save o { stored := some prev, account := acc, ledger := led } =
      (savedOrder o,
       { stored := some (awardedRow o)
         account := { balance := acc.balance + earnedPoints o.subtotal o.loyalty_discount
                      lifetime_earned :=
                        acc.lifetime_earned + earnedPoints o.subtotal o.loyalty_discount
                      lifetime_redeemed := acc.lifetime_redeemed }
         ledger := led ++ [{ order_id := o.id
                             transaction_type := TransType.earn
                             points := earnedPoints o.subtotal o.loyalty_discount
                             balance_after :=
                               acc.balance + earnedPoints o.subtotal o.loyalty_discount }] }) ∧
    Order.save (awardedRow o)
        (Order.save o { stored := some prev, account := acc, ledger := led }).2
      = (awardedRow o,
         (Order.save o { stored := some prev, account := acc, ledger := led }).2) := by
  have h1 := save_award o prev acc led hprev hself hst hpos
  refine ⟨h1, ?_⟩
  have hstatus : (awardedRow o).status ≠ OrderStatus.cancelled := by
    rcases hst with h | h <;> simp [awardedRow, savedOrder, h]
  rw [h1]
  have h2 := save_noop_flagged (awardedRow o) (awardedRow o)
    { balance := acc.balance + earnedPoints o.subtotal o.loyalty_discount
      lifetime_earned := acc.lifetime_earned + earnedPoints o.subtotal o.loyalty_discount
      lifetime_redeemed := acc.lifetime_redeemed }
    (led ++ [{ order_id := o.id
               transaction_type := TransType.earn
               points := earnedPoints o.subtotal o.loyalty_discount
               balance_after := acc.balance + earnedPoints o.subtotal o.loyalty_discount }])
    rfl hstatus
  rw [savedOrder_awardedRow] at h2
  exact h2

/-- Witness for C2 on the specification's concrete scenario: subtotal 500,
loyalty discount 50 — 22 points credited once, and the second save of the
awarded row changes nothing. -/
theorem loyalty_award_exactly_once_witness :
    (Order.save paidOrder
        { stored := some pendingPrev, account := exampleAccount, ledger := [] }).2.account.balance
      = exampleAccount.balance + earnedPoints paidOrder.subtotal paidOrder.loyalty_discount ∧
    earnedPoints paidOrder.subtotal paidOrder.loyalty_discount = 22 ∧
    Order.save (awardedRow paidOrder)
        (Order.save paidOrder
          { stored := some pendingPrev, account := exampleAccount, ledger := [] }).2
      = (awardedRow paidOrder,
         (Order.save paidOrder
           { stored := some pendingPrev, account := exampleAccount, ledger := [] }).2) := by
  have h := loyalty_award_exactly_once paidOrder pendingPrev exampleAccount [] rfl rfl
    (Or.inl rfl) (by norm_num [earnedPoints, paidOrder])
  exact ⟨by rw [h.1], by norm_num [earnedPoints, paidOrder], h.2⟩

/-- C10: when the discounted subtotal is below 20 the accrual floors to zero
points: the save still raises `loyalty_awarded` with
`loyalty_points_earned = 0`, leaves the account untouched and appends no
transaction — and a later save to `delivered` can never award points for
this order, because the flag is permanently true. -/
theorem zero_point_award_still_flags (o prev : Order) (acc : LoyaltyAccount)
    (led : List LoyaltyTransaction)
    (hprev : prev.loyalty_awarded = false) (hself : o.loyalty_awarded = false)
    (hstatus : o.status = OrderStatus.paid)
    (hsmall : max (o.subtotal - o.loyalty_discount) 0 < 20) :
    earnedPoints o.subtotal o.loyalty_discount = 0 ∧
    Order.save o { stored := some prev, account := acc, ledger := led }
      = (savedOrder o, { stored := some (awardedRow o), account := acc, ledger := led }) ∧
    Order.save { awardedRow o with status := OrderStatus.delivered }
        { stored := some (awardedRow o), account := acc, ledger := led }
      = ({ awardedRow o with status := OrderStatus.delivered },
         { stored := some { awardedRow o with status := OrderStatus.delivered }
           account := acc, ledger := led }) := by
  have hE : earnedPoints o.subtotal o.loyalty_discount = 0 := by
    rw [earnedPoints]
    apply Int.floor_eq_zero_iff.mpr
    constructor
    · exact mul_nonneg (le_max_right _ 0) (by norm_num)
    · have h20 : max (o.subtotal - o.loyalty_discount) 0 * (5 / 100 : ℚ)
          < 20 * (5 / 100 : ℚ) :=
        mul_lt_mul_of_pos_right hsmall (by norm_num)
      calc max (o.subtotal - o.loyalty_discount) 0 * (5 / 100 : ℚ)
          < 20 * (5 / 100 : ℚ) := h20
        _ = 1 := by norm_num
  refine ⟨hE, ?_, ?_⟩
  · simp [Order.save, hprev, hself, hstatus, normalize_amount, clampNonneg, hE,
          savedOrder, awardedRow]
  · have h2 := save_noop_flagged { awardedRow o with status := OrderStatus.delivered }
      (awardedRow o) acc led rfl (by simp [awardedRow, savedOrder])
    have h3 : savedOrder { awardedRow o with status := OrderStatus.delivered }
        = { awardedRow o with status := OrderStatus.delivered } := by
      simp [savedOrder, awardedRow]
    rw [h3] at h2
    exact h2

/-- Witness for C10: an order with subtotal 15 is saved as paid — zero
points, account untouched, flag raised. -/
theorem zero_point_award_still_flags_witness :
    earnedPoints smallOrder.subtotal smallOrder.loyalty_discount = 0 ∧
    Order.save smallOrder { stored := some smallPrev, account := exampleAccount, ledger := [] }
      = (savedOrder smallOrder,
         { stored := some (awardedRow smallOrder), account := exampleAccount, ledger := [] }) :=
  have h := zero_point_award_still_flags smallOrder smallPrev exampleAccount [] rfl rfl rfl
    (by norm_num [smallOrder])
  ⟨h.1, h.2.1⟩

/-- C3 (the failing input): the transition guard of the admin view is dead
code.  `form.is_valid()` writes the posted status onto the bound order
before the view reads `current_status`, so the two always coincide, the
guard never fires, and every valid posted status is saved: the operation
reports no invalid-transition error on any database state, and requesting
`paid` on the concrete shipped order is accepted — the stored row comes
back with status `paid` instead of being rejected unchanged. -/
theorem transition_guard_dead_code :
    (∀ (new_status : OrderStatus) (st : SaveState),
      (order_status_update new_status st).error = none) ∧
    shippedOrder.status = OrderStatus.shipped ∧
    OrderStatus.paid ∉ allowed_transitions OrderStatus.shipped ∧
    ((order_status_update OrderStatus.paid shippedState).state.stored).map Order.status
      = some OrderStatus.paid := by
  refine ⟨?_, rfl, by decide, ?_⟩
  · intro new_status st
    rcases st with ⟨stored, acc, led⟩
    cases stored <;> simp [order_status_update]
  · have h := save_noop_flagged { shippedOrder with status := OrderStatus.paid } shippedOrder
      exampleAccount [] rfl (by decide)
    simp [order_status_update, shippedState, h, savedOrder]

/-- C4: `clear_discounts` resets the discount fields of exactly the rows it
owns.  Rows with a different (or no) `discount_source` survive unchanged,
owned rows come back with neutral discount fields, the promotion is marked
inactive; and in the apply-A / apply-B / clear-A scenario over disjoint
manual promotions on a database not previously claimed by A, A's products
end with neutral discount fields while B's products and unrelated products
are untouched by A's clear. -/
theorem clear_discounts_isolation
    (A B : Promotion) (now1 now2 : ℤ) (perfumes : List Perfume) (pigments : List Pigment)
    (hA : A.promo_type = PromoType.manual) (hB : B.promo_type = PromoType.manual)
    (hid : A.id ≠ B.id)
    (hdisjP : ∀ i ∈ A.perfumes, i ∉ B.perfumes)
    (hdisjG : ∀ i ∈ A.pigments, i ∉ B.pigments)
    (hcleanP : ∀ p ∈ perfumes, p.discount_source ≠ some A.id)
    (hcleanG : ∀ g ∈ pigments, g.discount_source ≠ some A.id) :
    (∀ (promo : Promotion) (perfs : List Perfume) (pigs : List Pigment) (p : Perfume),
        p ∈ perfs → p.discount_source ≠ some promo.id →
        p ∈ (promo.clear_discounts perfs pigs).1) ∧
    (∀ (promo : Promotion) (perfs : List Perfume) (pigs : List Pigment) (g : Pigment),
        g ∈ pigs → g.discount_source ≠ some promo.id →
        g ∈ (promo.clear_discounts perfs pigs).2.1) ∧
    (∀ (promo : Promotion) (perfs : List Perfume) (pigs : List Pigment) (p : Perfume),
        p ∈ perfs → p.discount_source = some promo.id →
        clearPerfumeDiscount p ∈ (promo.clear_discounts perfs pigs).1) ∧
    (∀ (promo : Promotion) (perfs : List Perfume) (pigs : List Pigment),
        (promo.clear_discounts perfs pigs).2.2 = { promo with active := false }) ∧
    promoScenario A B now1 now2 perfumes pigments
      = (perfumes.map fun p =>
           if p.id ∈ A.perfumes then clearPerfumeDiscount p
           else if p.id ∈ B.perfumes then applyPerfumeDiscount B (B.start_at.getD now2) p
           else p,
         pigments.map fun g =>
           if g.id ∈ A.pigments then clearPigmentDiscount g
           else if g.id ∈ B.pigments then applyPigmentDiscount B (B.start_at.getD now2) g
           else g,
         { A with active := false }) := by
  refine ⟨?_, ?_, ?_, fun _ _ _ => rfl, ?_⟩
  · intro promo perfs pigs p hp hsource
    refine List.mem_map.mpr ⟨p, hp, ?_⟩
    simp [hsource]
  · intro promo perfs pigs g hg hsource
    refine List.mem_map.mpr ⟨g, hg, ?_⟩
    simp [hsource]
  · intro promo perfs pigs p hp hsource
    refine List.mem_map.mpr ⟨p, hp, ?_⟩
    simp [hsource]
  · have hfst :
        (promoScenario A B now1 now2 perfumes pigments).1
          = perfumes.map fun p =>
              if p.id ∈ A.perfumes then clearPerfumeDiscount p
              else if p.id ∈ B.perfumes then applyPerfumeDiscount B (B.start_at.getD now2) p
              else p := by
      simp only [promoScenario, Promotion.apply_discounts, Promotion.clear_discounts,
        List.map_map]
      refine List.map_congr_left ?_
      intro p hp
      simp only [Function.comp]
      by_cases hpA : p.id ∈ A.perfumes
      · have hpB : p.id ∉ B.perfumes := hdisjP _ hpA
        simp [Promotion.targets_perfume, hA, hB, hpA, hpB, applyPerfumeDiscount,
          clearPerfumeDiscount]
      · by_cases hpB : p.id ∈ B.perfumes
        · simp [Promotion.targets_perfume, hA, hB, hpA, hpB, applyPerfumeDiscount,
            clearPerfumeDiscount, Ne.symm hid]
        · simp [Promotion.targets_perfume, hA, hB, hpA, hpB, hcleanP p hp]
    have hsnd :
        (promoScenario A B now1 now2 perfumes pigments).2.1
          = pigments.map fun g =>
              if g.id ∈ A.pigments then clearPigmentDiscount g
              else if g.id ∈ B.pigments then applyPigmentDiscount B (B.start_at.getD now2) g
              else g := by
      simp only [promoScenario, Promotion.apply_discounts, Promotion.clear_discounts,
        List.map_map]
      refine List.map_congr_left ?_
      intro g hg
      simp only [Function.comp]
      by_cases hgA : g.id ∈ A.pigments
      · have hgB : g.id ∉ B.pigments := hdisjG _ hgA
        simp [Promotion.targets_pigment, hA, hB, hgA, hgB, applyPigmentDiscount,
          clearPigmentDiscount]
      · by_cases hgB : g.id ∈ B.pigments
        · simp [Promotion.targets_pigment, hA, hB, hgA, hgB, applyPigmentDiscount,
            clearPigmentDiscount, Ne.symm hid]
        · simp [Promotion.targets_pigment, hA, hB, hgA, hgB, hcleanG g hg]
    have hthd : (promoScenario A B now1 now2 perfumes pigments).2.2
        = { A with active := false } := rfl
    calc promoScenario A B now1 now2 perfumes pigments
        = ((promoScenario A B now1 now2 perfumes pigments).1,
           (promoScenario A B now1 now2 perfumes pigments).2.1,
           (promoScenario A B now1 now2 perfumes pigments).2.2) := rfl
      _ = _ := by rw [hfst, hsnd, hthd]

/-- Witness for C4 at a concrete database: promotion A (perfume 1, pigment
31), promotion B (perfume 2), a manually discounted perfume 3 and an
unrelated pigment 32. -/
theorem clear_discounts_isolation_witness :
    promoScenario promoA promoB 0 0 scenarioPerfumes scenarioPigments
      = (scenarioPerfumes.map fun p =>
           if p.id ∈ promoA.perfumes then clearPerfumeDiscount p
           else if p.id ∈ promoB.perfumes then
             applyPerfumeDiscount promoB (promoB.start_at.getD 0) p
           else p,
         scenarioPigments.map fun g =>
           if g.id ∈ promoA.pigments then clearPigmentDiscount g
           else if g.id ∈ promoB.pigments then
             applyPigmentDiscount promoB (promoB.start_at.getD 0) g
           else g,
         { promoA with active := false }) :=
  (clear_discounts_isolation promoA promoB 0 0 scenarioPerfumes scenarioPigments rfl rfl
    (by decide) (by decide) (by decide) (by decide) (by decide)).2.2.2.2

/-- C5 (the failing input): a cart line for an in-stock product (stock 5)
with a selected variant that is out of stock (stock 0, `in_stock = False`)
checks out successfully: the stock check and the decrement hit only the
product row, the variant comes back untouched, and the `OrderItem` snapshot
carries no variant label — although the claim requires the check to read
the selected variant's own stock and the snapshot to record the variant. -/
theorem checkout_ignores_variant_stock :
    checkout 0 [variantLine] = Except.ok
      { subtotal := 10
        items := [{ product_name := "Aurum", product_sku := "SKU5"
                    selected_volume_ml := none, selected_weight_gr := none
                    quantity := 1, unit_price := 10, total_price := 10 }]
        lines := [{ target := CartTarget.perfume { checkoutPerfume with stock_quantity := 4 }
                      (some emptyVolume)
                    cart_quantity := none }] } ∧
    variantLine.item.target.selected_stock_quantity < variantLine.requested ∧
    emptyVolume.in_stock = false := by
  refine ⟨?_, by decide, rfl⟩
  simp only [checkout, validateLines, checkLine, buildOrderItem, applyLine, decrementStock,
    variantLine, checkoutPerfume, emptyVolume, CartItem.unit_price,
    VolumeOption.get_discounted_price, Perfume.is_on_sale, discountPricePositive,
    CartTarget.product_name, CartTarget.product_sku, CartTarget.product_in_stock,
    CartTarget.product_stock_quantity, List.isEmpty, List.map, Except.map, List.sum]
  norm_num

end NPStore
